import Mathlib

/-!
# Carbon footprint calculator — shallow embedding

This file embeds the emissions computation engine of `src/app/page.tsx`
(a carbon footprint calculator): the input data model, the three sector
calculators (`calculateTransportEmissions`, `calculateEnergyEmissions`,
`calculateLifestyleEmissions`), the aggregator (`calculateFinalFootprint`
together with `compareToNationalAverage`) and the rule-based
recommendation engine (`getDetailedRecommendations`).

Modelling conventions:
* JavaScript numbers are modelled as rationals (`ℚ`); all the coefficients
  in the source are exact decimal literals, so rational arithmetic mirrors
  the intended real-number semantics exactly.
* In the transport calculator the source indexes the `EMISSIONS_FACTORS.car`
  and `EMISSIONS_FACTORS.publicTransport` tables *without* a fallback
  (`|| …`); an unknown key therefore yields `undefined` and the JavaScript
  arithmetic produces `NaN`, which poisons the whole result.  We model a
  potentially-`NaN` value as `Option ℚ` (`none` = `NaN`); lookups into those
  two tables return `Option ℚ` and `NaN` propagates through the sum.
* The energy, lifestyle and diet lookups in the source use `|| default`
  fallbacks (all table values are truthy), so those calculators always
  return a plain rational.
* JavaScript truthiness of strings (`s && s !== 'none'`) is modelled as
  `s ≠ "" ∧ s ≠ "none"`; truthiness of the optional numeric field
  `renewablePercentage` is modelled via `Option.getD` and a `≠ 0` test.
* The long French description texts of the recommendation actions are kept
  verbatim (with apostrophes written as the escape `\x27`).
-/

/-- `TransportData.motorcycle` of the source (accepted but never consumed). -/
structure Motorcycle where
  owns : Bool
  mtype : Option String
  km : Option ℚ
deriving DecidableEq, Repr

/-- `TransportData` of the source. -/
structure TransportData where
  carType : String
  carKm : ℚ
  carAge : ℚ
  carPassengers : ℚ
  publicTransportType : String
  publicTransportKm : ℚ
  flightsShortHaul : ℚ
  flightsMediumHaul : ℚ
  flightsLongHaul : ℚ
  motorcycle : Motorcycle
deriving DecidableEq, Repr

/-- `EnergyData` of the source. -/
structure EnergyData where
  homeType : String
  homeSize : ℚ
  occupants : ℚ
  electricityKwh : ℚ
  heatingType : String
  heatingConsumption : ℚ
  renewableEnergy : Bool
  renewablePercentage : Option ℚ
  insulation : String
deriving DecidableEq, Repr

/-- `LifestyleData.shoppingHabits` of the source. -/
structure ShoppingHabits where
  clothes : ℚ
  electronics : ℚ
  furniture : ℚ
deriving DecidableEq, Repr

/-- `LifestyleData` of the source. -/
structure LifestyleData where
  dietType : String
  meatFrequency : Option ℚ
  localFoodPercentage : ℚ
  wasteRecycling : Bool
  wasteComposting : Bool
  shoppingHabits : ShoppingHabits
  waterConsumption : ℚ
deriving DecidableEq, Repr

/-- `FormData` of the source. -/
structure FormData where
  transport : TransportData
  energy : EnergyData
  lifestyle : LifestyleData
deriving DecidableEq, Repr

/-- `CarbonFootprintResult.comparison` of the source. -/
structure Comparison where
  percentageFromNational : ℚ
  percentageFromWorld : ℚ
  nationalAverage : ℚ
  worldAverage : ℚ
deriving DecidableEq, Repr

/-- `CarbonFootprintResult.breakdown` of the source. -/
structure Breakdown where
  transport : ℚ
  energy : ℚ
  lifestyle : ℚ
deriving DecidableEq, Repr

/-- `CarbonFootprintResult` of the source. -/
structure CarbonFootprintResult where
  total : ℚ
  breakdown : Breakdown
  comparison : Comparison
deriving DecidableEq, Repr

/-- `EMISSIONS_FACTORS.car` (kg CO2e/km).  The source indexes this table
with `transport.carType` and NO fallback, so an unknown key yields
`undefined`; we return `none` in that case. -/
def carLookup (s : String) : Option ℚ :=
  if s = "electric" then some 0.024
  else if s = "hybrid" then some 0.089
  else if s = "petrol" then some 0.192
  else if s = "diesel" then some 0.171
  else if s = "none" then some 0
  else none

/-- `EMISSIONS_FACTORS.publicTransport` (kg CO2e/km), again with no
fallback in the source. -/
def publicTransportLookup (s : String) : Option ℚ :=
  if s = "bus" then some 0.089
  else if s = "train" then some 0.041
  else if s = "tram" then some 0.035
  else if s = "subway" then some 0.033
  else if s = "none" then some 0
  else none

/-- `EMISSIONS_FACTORS.flights` (kg CO2e per flight). -/
def flightsShortHaulFactor : ℚ := 180
def flightsMediumHaulFactor : ℚ := 400
def flightsLongHaulFactor : ℚ := 1800

/-- `EMISSIONS_FACTORS.diet` with the `|| EMISSIONS_FACTORS.diet.omnivore`
fallback of the source (all table values are truthy, so `||` is an
ordinary default). -/
def dietFactor (s : String) : ℚ :=
  if s = "vegan" then 1000
  else if s = "vegetarian" then 1500
  else if s = "pescatarian" then 1700
  else if s = "flexitarian" then 2000
  else if s = "omnivore" then 2500
  else 2500

/-- `ENERGY_CONVERSION_FACTORS[heatingType] || 1` (kWh per native unit). -/
def energyConversionFactor (s : String) : ℚ :=
  if s = "gas" then 10.55
  else if s = "oil" then 10.0
  else if s = "electric" then 1
  else if s = "heatPump" then 1
  else 1

/-- `heatingEmissionFactors[heatingType] || heatingEmissionFactors.electric`
(tonnes CO2e per 1000 kWh). -/
def heatingEmissionFactor (s : String) : ℚ :=
  if s = "gas" then 0.205
  else if s = "oil" then 0.324
  else if s = "electric" then 0.0571
  else if s = "heatPump" then 0.019
  else 0.0571

/-- `insulationFactors[insulation] || 1`. -/
def insulationFactor (s : String) : ℚ :=
  if s = "poor" then 1.3
  else if s = "medium" then 1
  else if s = "good" then 0.8
  else if s = "excellent" then 0.6
  else 1

/-- The car summand of `calculateTransportEmissions` given the base
emission coefficient: `(carKm * baseEmission * ageMultiplier) / passengerDivisor`
with `ageMultiplier = 1 + min(carAge, 15) * 0.02` and
`passengerDivisor = max(carPassengers, 1)`. -/
def carEmission (t : TransportData) (baseEmission : ℚ) : ℚ :=
  (t.carKm * baseEmission * (1 + min t.carAge 15 * 0.02)) / max t.carPassengers 1

/-- The car branch of `calculateTransportEmissions`: guarded by
`transport.carType && transport.carType !== 'none'`; inside the guard an
unknown `carType` makes the lookup `undefined` and the arithmetic `NaN`. -/
def carContribution (t : TransportData) : Option ℚ :=
  if t.carType ≠ "" ∧ t.carType ≠ "none" then
    match carLookup t.carType with
    | some baseEmission => some (carEmission t baseEmission)
    | none => none
  else some 0

/-- The public-transport branch of `calculateTransportEmissions`. -/
def publicTransportContribution (t : TransportData) : Option ℚ :=
  if t.publicTransportType ≠ "" ∧ t.publicTransportType ≠ "none" then
    match publicTransportLookup t.publicTransportType with
    | some ptEmission => some (t.publicTransportKm * ptEmission)
    | none => none
  else some 0

/-- The flights summand of `calculateTransportEmissions` (kg CO2e). -/
def flightsEmission (t : TransportData) : ℚ :=
  t.flightsShortHaul * flightsShortHaulFactor
    + t.flightsMediumHaul * flightsMediumHaulFactor
    + t.flightsLongHaul * flightsLongHaulFactor

/-- `calculateTransportEmissions`: car + public transport + flights, in kg,
divided by 1000 (tonnes).  `none` models the `NaN` result the JavaScript
produces when either category lookup misses. -/
def calculateTransportEmissions (t : TransportData) : Option ℚ :=
  (carContribution t).bind fun car =>
    (publicTransportContribution t).map fun pt =>
      (car + pt + flightsEmission t) / 1000

/-- `calculateEnergyEmissions`.  `baseElectricityEmission = 0.0571`; the
renewable scaling runs only when `renewableEnergy` is set AND
`renewablePercentage` is truthy (present and nonzero). -/
def calculateEnergyEmissions (e : EnergyData) : ℚ :=
  let baseElectricityEmission : ℚ := 0.0571
  let electricityEmissions := (e.electricityKwh / 1000) * baseElectricityEmission
  let electricityEmissions :=
    if e.renewableEnergy ∧ e.renewablePercentage.getD 0 ≠ 0 then
      electricityEmissions * (1 - e.renewablePercentage.getD 0 / 100)
    else electricityEmissions
  let heatingKwh := e.heatingConsumption * energyConversionFactor e.heatingType
  let heatingEmissions := (heatingKwh / 1000) * heatingEmissionFactor e.heatingType
  (electricityEmissions + heatingEmissions) * insulationFactor e.insulation

/-- `calculateLifestyleEmissions`. -/
def calculateLifestyleEmissions (l : LifestyleData) : ℚ :=
  let dietEmission := dietFactor l.dietType
  let localFoodAdjustment := 1 - l.localFoodPercentage * 0.002
  let emissions := dietEmission * localFoodAdjustment / 1000
  let shoppingEmissions :=
    (l.shoppingHabits.clothes * 0.1
      + l.shoppingHabits.electronics * 0.2
      + l.shoppingHabits.furniture * 0.15) * 0.01
  let emissions := emissions + shoppingEmissions
  let emissions := if l.wasteRecycling then emissions * 0.9 else emissions
  let emissions := if l.wasteComposting then emissions * 0.95 else emissions
  emissions

/-- `compareToNationalAverage`: percentage deltas against the French
average (9.0 t) and the world average (4.7 t). -/
def compareToNationalAverage (totalEmissions : ℚ) : Comparison :=
  { percentageFromNational := (totalEmissions - 9.0) / 9.0 * 100
    percentageFromWorld := (totalEmissions - 4.7) / 4.7 * 100
    nationalAverage := 9.0
    worldAverage := 4.7 }

/-- `calculateFinalFootprint`: runs the three sector calculators, sums them
and attaches the comparison block.  The result is `none` when the transport
calculator produced `NaN` (which then poisons every numeric field of the
JavaScript result object). -/
def calculateFinalFootprint (fd : FormData) : Option CarbonFootprintResult :=
  (calculateTransportEmissions fd.transport).map fun transportEmissions =>
    let energyEmissions := calculateEnergyEmissions fd.energy
    let lifestyleEmissions := calculateLifestyleEmissions fd.lifestyle
    let total := transportEmissions + energyEmissions + lifestyleEmissions
    { total := total
      breakdown :=
        { transport := transportEmissions
          energy := energyEmissions
          lifestyle := lifestyleEmissions }
      comparison := compareToNationalAverage total }

/-- The recommendation actions of `getDetailedRecommendations`
(title, impact, description). -/
structure RecAction where
  title : String
  impact : String
  description : String
deriving DecidableEq, Repr

/-- One sector block of the recommendation output. -/
structure RecCategory where
  category : String
  actions : List RecAction
deriving DecidableEq, Repr

/-- Transport action fired by `carKm > 15000`. -/
def reduceCarTravelAction : RecAction :=
  { title := "Réduisez vos déplacements en voiture"
    impact := "Élevé"
    description := "Essayez le covoiturage ou les transports en commun pour vos trajets réguliers. Une réduction de 20% de vos trajets en voiture pourrait économiser jusqu\x27à 600kg de CO2 par an." }

/-- Transport action fired by `flightsLongHaul > 0`. -/
def optimizeFlightsAction : RecAction :=
  { title := "Optimisez vos voyages en avion"
    impact := "Modéré"
    description := "Un vol long-courrier par an reste raisonnable. Pour réduire davantage votre impact, privilégiez le train pour les destinations accessibles et regroupez vos voyages lointains." }

/-- Transport action fired by `carType ∈ {petrol, diesel}`. -/
def greenerVehicleAction : RecAction :=
  { title := "Envisagez un véhicule plus écologique"
    impact := "Élevé"
    description := "Le passage à un véhicule hybride ou électrique pourrait réduire vos émissions de transport de 50 à 75%." }

/-- Energy action fired by `electricityKwh > 5000`. -/
def optimizeElectricityAction : RecAction :=
  { title := "Optimisez votre consommation électrique"
    impact := "Élevé"
    description := "Remplacez vos appareils énergivores par des modèles A+++, utilisez des LED et éteignez les appareils en veille. Potentiel d\x27économie : 20-30% de votre consommation." }

/-- Energy action fired by `!renewableEnergy`. -/
def renewableEnergyAction : RecAction :=
  { title := "Passez aux énergies renouvelables"
    impact := "Très élevé"
    description := "Changer pour un fournisseur d\x27énergie verte peut réduire l\x27empreinte carbone de votre consommation électrique jusqu\x27à 75%." }

/-- Energy action fired by `insulation ∈ {poor, medium}`. -/
def improveInsulationAction : RecAction :=
  { title := "Améliorez l\x27isolation de votre logement"
    impact := "Élevé"
    description := "Une bonne isolation peut réduire votre consommation de chauffage de 30 à 50%. Commencez par les combles et les fenêtres." }

/-- Energy action fired by `heatingType = oil`. -/
def changeHeatingAction : RecAction :=
  { title := "Changez votre système de chauffage"
    impact := "Très élevé"
    description := "Remplacer le chauffage au fioul par une pompe à chaleur peut réduire vos émissions de chauffage de plus de 80%." }

/-- Lifestyle action fired by `dietType = omnivore`. -/
def reduceMeatAction : RecAction :=
  { title := "Réduisez votre consommation de viande"
    impact := "Élevé"
    description := "Devenir flexitarien en réduisant votre consommation de viande de 50% peut diminuer l\x27empreinte carbone de votre alimentation d\x27environ 30%." }

/-- Lifestyle action fired by `localFoodPercentage < 30`. -/
def localFoodAction : RecAction :=
  { title := "Privilégiez les produits locaux et de saison"
    impact := "Modéré"
    description := "Consommer local et de saison réduit les émissions liées au transport et aux serres chauffées. Visez 50% de produits locaux." }

/-- Lifestyle action fired by `!wasteRecycling || !wasteComposting`. -/
def wasteManagementAction : RecAction :=
  { title := "Améliorez votre gestion des déchets"
    impact := "Modéré"
    description := "Le recyclage et le compostage peuvent réduire vos émissions liées aux déchets de 25%. Commencez par trier vos déchets et compostez vos déchets organiques." }

/-- Lifestyle action fired by `clothes > 70 || electronics > 70`. -/
def responsibleShoppingAction : RecAction :=
  { title := "Adoptez une consommation plus responsable"
    impact := "Modéré"
    description := "Privilégiez les achats d\x27occasion, réparez vos appareils et gardez vos vêtements plus longtemps. Réduisez vos achats non essentiels de 30%." }

/-- The Transport block of `getDetailedRecommendations`: each true predicate
pushes its action, in declaration order. -/
def transportActions (t : TransportData) : List RecAction :=
  (if t.carKm > 15000 then [reduceCarTravelAction] else [])
    ++ (if t.flightsLongHaul > 0 then [optimizeFlightsAction] else [])
    ++ (if t.carType = "petrol" ∨ t.carType = "diesel" then [greenerVehicleAction] else [])

/-- The Energy block of `getDetailedRecommendations`. -/
def energyActions (e : EnergyData) : List RecAction :=
  (if e.electricityKwh > 5000 then [optimizeElectricityAction] else [])
    ++ (if e.renewableEnergy = false then [renewableEnergyAction] else [])
    ++ (if e.insulation = "poor" ∨ e.insulation = "medium" then [improveInsulationAction] else [])
    ++ (if e.heatingType = "oil" then [changeHeatingAction] else [])

/-- The Lifestyle block of `getDetailedRecommendations`. -/
def lifestyleActions (l : LifestyleData) : List RecAction :=
  (if l.dietType = "omnivore" then [reduceMeatAction] else [])
    ++ (if l.localFoodPercentage < 30 then [localFoodAction] else [])
    ++ (if l.wasteRecycling = false ∨ l.wasteComposting = false then [wasteManagementAction] else [])
    ++ (if l.shoppingHabits.clothes > 70 ∨ l.shoppingHabits.electronics > 70 then [responsibleShoppingAction] else [])

/-- `getDetailedRecommendations`: a sector block is pushed onto the result
only when its `actions` list is nonempty (`actions.length > 0`). -/
def getDetailedRecommendations (fd : FormData) : List RecCategory :=
  (if transportActions fd.transport ≠ [] then
    [{ category := "Transport", actions := transportActions fd.transport }] else [])
    ++ (if energyActions fd.energy ≠ [] then
      [{ category := "Énergie", actions := energyActions fd.energy }] else [])
    ++ (if lifestyleActions fd.lifestyle ≠ [] then
      [{ category := "Mode de vie", actions := lifestyleActions fd.lifestyle }] else [])

/-- A transport record with every numeric field 0 and both categorical
fields at their none/neutral defaults (`carType = "none"`,
`publicTransportType = ""` as in `initialFormData`, `carPassengers = 1`). -/
def zeroTransport : TransportData :=
  { carType := "none"
    carKm := 0
    carAge := 0
    carPassengers := 1
    publicTransportType := ""
    publicTransportKm := 0
    flightsShortHaul := 0
    flightsMediumHaul := 0
    flightsLongHaul := 0
    motorcycle := { owns := false, mtype := none, km := none } }

/-- An energy record with every numeric field 0 and neutral categorical
defaults (`heatingType = ""`, `insulation = "medium"`, renewables off). -/
def zeroEnergy : EnergyData :=
  { homeType := ""
    homeSize := 0
    occupants := 1
    electricityKwh := 0
    heatingType := ""
    heatingConsumption := 0
    renewableEnergy := false
    renewablePercentage := none
    insulation := "medium" }

/-- A lifestyle record with every numeric field 0, `dietType = ""` and both
waste flags off. -/
def zeroLifestyle : LifestyleData :=
  { dietType := ""
    meatFrequency := none
    localFoodPercentage := 0
    wasteRecycling := false
    wasteComposting := false
    shoppingHabits := { clothes := 0, electronics := 0, furniture := 0 }
    waterConsumption := 0 }

/-- The fully zero / neutral input record. -/
def zeroRecord : FormData :=
  { transport := zeroTransport, energy := zeroEnergy, lifestyle := zeroLifestyle }

/-- Concrete scenario 1 of the spec: petrol car, 20000 km/year, age 5,
1 passenger, everything else zero or none. -/
def scenario1Transport : TransportData :=
  { zeroTransport with carType := "petrol", carKm := 20000, carAge := 5 }

/-- Concrete scenario 2 of the spec: 6000 kWh electricity, gas heating with
1000 m³ consumption, medium insulation, renewables disabled. -/
def scenario2Energy : EnergyData :=
  { zeroEnergy with electricityKwh := 6000, heatingType := "gas", heatingConsumption := 1000 }

/-- A transport record whose `carType` lies outside the enumerated set. -/
def truckTransport : TransportData :=
  { zeroTransport with carType := "truck", carKm := 10000 }

/-- A petrol car record with `carKm = 0` (and 1 passenger). -/
def zeroKmPetrol : TransportData :=
  { zeroTransport with carType := "petrol" }

/-- Concrete scenario 4 of the spec: `carKm = 20000` and `carType = petrol`. -/
def scenario4Record : FormData :=
  { zeroRecord with transport := { zeroTransport with carType := "petrol", carKm := 20000 } }

/-- The result record produced for `zeroRecord`. -/
def aggregated : CarbonFootprintResult :=
  { total := 2.5
    breakdown := { transport := 0, energy := 0, lifestyle := 2.5 }
    comparison := compareToNationalAverage 2.5 }

/-- `zeroRecord` with a (contract-violating) negative electricity
consumption; its lifestyle fields still satisfy all the range constraints
of claim C10. -/
def negElectricityRecord : FormData :=
  { zeroRecord with energy := { zeroEnergy with electricityKwh := -1000000 } }

/-- A transport record making all three Transport predicates true
(`carKm > 15000`, `flightsLongHaul > 0`, `carType ∈ {petrol, diesel}`). -/
def allFireTransport : TransportData :=
  { zeroTransport with carType := "petrol", carKm := 20000, flightsLongHaul := 2 }

/-- An energy record making all four Energy predicates true
(`electricityKwh > 5000`, renewables disabled, poor insulation, oil
heating). -/
def allFireEnergy : EnergyData :=
  { zeroEnergy with electricityKwh := 6000, heatingType := "oil", insulation := "poor" }

/-- A lifestyle record making all four Lifestyle predicates true
(omnivore diet, `localFoodPercentage < 30`, composting disabled,
`clothes > 70`). -/
def allFireLifestyle : LifestyleData :=
  { zeroLifestyle with
      dietType := "omnivore"
      shoppingHabits := { clothes := 80, electronics := 0, furniture := 0 } }

/-- A record on which every one of the eleven recommendation predicates
fires. -/
def allFireRecord : FormData :=
  { transport := allFireTransport, energy := allFireEnergy, lifestyle := allFireLifestyle }

/-- Claim C1, counterexample — for the fully zero / neutral input record
(every numeric field 0, `carType = "none"`, waste flags off) the computed
total is 2.5 tonnes, not 0: the diet lookup falls back to the omnivore
baseline of 2500 kg even when no diet is selected. -/
theorem zero_record_total_is_not_zero :
    (calculateFinalFootprint zeroRecord).map CarbonFootprintResult.total = some 2.5
      ∧ (2.5 : ℚ) ≠ 0 := by
  constructor
  · simp [calculateFinalFootprint, calculateTransportEmissions, carContribution,
      publicTransportContribution, carLookup, publicTransportLookup, carEmission,
      flightsEmission, flightsShortHaulFactor, flightsMediumHaulFactor, flightsLongHaulFactor,
      calculateEnergyEmissions, energyConversionFactor, heatingEmissionFactor, insulationFactor,
      calculateLifestyleEmissions, dietFactor, compareToNationalAverage,
      zeroRecord, zeroTransport, zeroEnergy, zeroLifestyle, min_def, max_def]
    norm_num
  · norm_num

/-- Claim C1, amended — for every fully-populated record whose numeric
fields are all 0, whose waste flags are off, whose transport categories are
`""`/`"none"` and whose diet type is not one of the four sub-omnivore
diets, the transport and energy sectors are 0 but the total is 2.5 tonnes
(the omnivore fallback diet term), not 0. -/
theorem zero_numeric_record_total (fd : FormData)
    (hct : fd.transport.carType = "" ∨ fd.transport.carType = "none")
    (hpt : fd.transport.publicTransportType = "" ∨ fd.transport.publicTransportType = "none")
    (hsh : fd.transport.flightsShortHaul = 0)
    (hmh : fd.transport.flightsMediumHaul = 0)
    (hlh : fd.transport.flightsLongHaul = 0)
    (hel : fd.energy.electricityKwh = 0)
    (hhc : fd.energy.heatingConsumption = 0)
    (hdiet : dietFactor fd.lifestyle.dietType = 2500)
    (hlf : fd.lifestyle.localFoodPercentage = 0)
    (hcl : fd.lifestyle.shoppingHabits.clothes = 0)
    (hee : fd.lifestyle.shoppingHabits.electronics = 0)
    (hfu : fd.lifestyle.shoppingHabits.furniture = 0)
    (hre : fd.lifestyle.wasteRecycling = false)
    (hco : fd.lifestyle.wasteComposting = false) :
    calculateFinalFootprint fd
      = some { total := 2.5
               breakdown := { transport := 0, energy := 0, lifestyle := 2.5 }
               comparison := compareToNationalAverage 2.5 } := by
  have htr : calculateTransportEmissions fd.transport = some 0 := by
    rcases hct with h1 | h1 <;> rcases hpt with h2 | h2 <;>
      simp [calculateTransportEmissions, carContribution, publicTransportContribution,
        carLookup, publicTransportLookup, flightsEmission, h1, h2, hsh, hmh, hlh]
  have hen : calculateEnergyEmissions fd.energy = 0 := by
    simp [calculateEnergyEmissions, hel, hhc]
  have hls : calculateLifestyleEmissions fd.lifestyle = 2.5 := by
    simp [calculateLifestyleEmissions, hdiet, hlf, hcl, hee, hfu, hre, hco]
    norm_num
  simp [calculateFinalFootprint, htr, hen, hls]

/-- Claim C1, witness — the amended statement applied to the concrete zero
record. -/
theorem zero_numeric_record_total_witness :
    calculateFinalFootprint zeroRecord
      = some { total := 2.5
               breakdown := { transport := 0, energy := 0, lifestyle := 2.5 }
               comparison := compareToNationalAverage 2.5 } :=
  zero_numeric_record_total zeroRecord (Or.inr rfl) (Or.inl rfl) rfl rfl rfl rfl rfl
    (by simp [dietFactor, zeroRecord, zeroLifestyle]) rfl rfl rfl rfl rfl rfl

/-- Claim C2, counterexample — a `carType` outside the enumerated set is
NOT treated as the `none` branch: the calculator returns `NaN` (modelled
`none`), while the same record with `carType = "none"` returns 0 tonnes. -/
theorem unknown_car_type_not_treated_as_none :
    calculateTransportEmissions truckTransport = none
      ∧ calculateTransportEmissions { truckTransport with carType := "none" } = some 0 := by
  constructor <;>
    simp [calculateTransportEmissions, carContribution, publicTransportContribution,
      carLookup, publicTransportLookup, carEmission, flightsEmission, flightsShortHaulFactor,
      flightsMediumHaulFactor, flightsLongHaulFactor, truckTransport, zeroTransport]

/-- Claim C2, amended — the transport calculator returns a well-defined
numeric result exactly when both category strings are empty or resolve in
their lookup tables (`"none"` included); any other string in either field
makes the whole result `NaN` instead of a zero contribution. -/
theorem transport_defined_iff_known_categories (t : TransportData) :
    (calculateTransportEmissions t).isSome
      ↔ ((t.carType = "" ∨ (carLookup t.carType).isSome)
          ∧ (t.publicTransportType = "" ∨ (publicTransportLookup t.publicTransportType).isSome)) := by
  unfold calculateTransportEmissions carContribution publicTransportContribution
  by_cases h1 : t.carType = "" <;> by_cases h2 : t.carType = "none" <;>
    by_cases h3 : t.publicTransportType = "" <;> by_cases h4 : t.publicTransportType = "none" <;>
      cases hc : carLookup t.carType <;> cases hp : publicTransportLookup t.publicTransportType <;>
        simp_all [carLookup, publicTransportLookup]

/-- Claim C3 — concrete scenario 2: 6000 kWh electricity and 1000 m³ of
gas with medium insulation and renewables disabled yield exactly
`(6000/1000)*0.0571 + (1000*10.55/1000)*0.205 = 2.50535` tonnes
(multiplied by the medium insulation factor 1). -/
theorem energy_scenario2_gas :
    calculateEnergyEmissions scenario2Energy = 2.50535 := by
  simp [calculateEnergyEmissions, energyConversionFactor, heatingEmissionFactor,
    insulationFactor, scenario2Energy, zeroEnergy]
  norm_num

/-- Claim C4 — in every sector the recommendation engine evaluates its
threshold predicates independently, appends one action per true predicate
in the fixed declaration order, and includes the sector block exactly when
at least one of its predicates fired; for `carKm = 20000` and
`carType = "petrol"` the high-distance and non-electric-vehicle Transport
actions both appear, in that order. -/
theorem recommendation_predicates_fire_independently :
    transportActions scenario4Record.transport = [reduceCarTravelAction, greenerVehicleAction]
      ∧ getDetailedRecommendations allFireRecord
          = [{ category := "Transport"
               actions := [reduceCarTravelAction, optimizeFlightsAction, greenerVehicleAction] },
             { category := "Énergie"
               actions := [optimizeElectricityAction, renewableEnergyAction,
                 improveInsulationAction, changeHeatingAction] },
             { category := "Mode de vie"
               actions := [reduceMeatAction, localFoodAction, wasteManagementAction,
                 responsibleShoppingAction] }]
      ∧ (∀ fd : FormData,
          ({ category := "Transport", actions := transportActions fd.transport } : RecCategory)
              ∈ getDetailedRecommendations fd
            ↔ transportActions fd.transport ≠ [])
      ∧ (∀ fd : FormData,
          ({ category := "Énergie", actions := energyActions fd.energy } : RecCategory)
              ∈ getDetailedRecommendations fd
            ↔ energyActions fd.energy ≠ [])
      ∧ (∀ fd : FormData,
          ({ category := "Mode de vie", actions := lifestyleActions fd.lifestyle } : RecCategory)
              ∈ getDetailedRecommendations fd
            ↔ lifestyleActions fd.lifestyle ≠ [])
      ∧ (∀ t : TransportData, reduceCarTravelAction ∈ transportActions t ↔ t.carKm > 15000)
      ∧ (∀ t : TransportData, optimizeFlightsAction ∈ transportActions t ↔ t.flightsLongHaul > 0)
      ∧ (∀ t : TransportData, greenerVehicleAction ∈ transportActions t
          ↔ (t.carType = "petrol" ∨ t.carType = "diesel"))
      ∧ (∀ e : EnergyData, optimizeElectricityAction ∈ energyActions e ↔ e.electricityKwh > 5000)
      ∧ (∀ e : EnergyData, renewableEnergyAction ∈ energyActions e ↔ e.renewableEnergy = false)
      ∧ (∀ e : EnergyData, improveInsulationAction ∈ energyActions e
          ↔ (e.insulation = "poor" ∨ e.insulation = "medium"))
      ∧ (∀ e : EnergyData, changeHeatingAction ∈ energyActions e ↔ e.heatingType = "oil")
      ∧ (∀ l : LifestyleData, reduceMeatAction ∈ lifestyleActions l ↔ l.dietType = "omnivore")
      ∧ (∀ l : LifestyleData, localFoodAction ∈ lifestyleActions l ↔ l.localFoodPercentage < 30)
      ∧ (∀ l : LifestyleData, wasteManagementAction ∈ lifestyleActions l
          ↔ (l.wasteRecycling = false ∨ l.wasteComposting = false))
      ∧ (∀ l : LifestyleData, responsibleShoppingAction ∈ lifestyleActions l
          ↔ (l.shoppingHabits.clothes > 70 ∨ l.shoppingHabits.electronics > 70)) := by
  refine ⟨?_, ?_, ?_, ?_, ?_, ?_, ?_, ?_, ?_, ?_, ?_, ?_, ?_, ?_, ?_, ?_⟩
  · norm_num [transportActions, scenario4Record, zeroTransport]
  · norm_num [getDetailedRecommendations, transportActions, energyActions, lifestyleActions,
      allFireRecord, allFireTransport, allFireEnergy, allFireLifestyle,
      zeroTransport, zeroEnergy, zeroLifestyle]
    simp
  · intro fd
    constructor
    · intro hmem h
      rw [getDetailedRecommendations] at hmem
      simp [h] at hmem
    · intro h
      rw [getDetailedRecommendations]
      simp [h]
  · intro fd
    constructor
    · intro hmem h
      rw [getDetailedRecommendations] at hmem
      simp [h] at hmem
    · intro h
      rw [getDetailedRecommendations]
      simp [h]
  · intro fd
    constructor
    · intro hmem h
      rw [getDetailedRecommendations] at hmem
      simp [h] at hmem
    · intro h
      rw [getDetailedRecommendations]
      simp [h]
  · intro t
    simp [transportActions, reduceCarTravelAction, optimizeFlightsAction, greenerVehicleAction]
  · intro t
    simp [transportActions, reduceCarTravelAction, optimizeFlightsAction, greenerVehicleAction]
  · intro t
    simp [transportActions, reduceCarTravelAction, optimizeFlightsAction, greenerVehicleAction]
  · intro e
    simp [energyActions, optimizeElectricityAction, renewableEnergyAction,
      improveInsulationAction, changeHeatingAction]
  · intro e
    simp [energyActions, optimizeElectricityAction, renewableEnergyAction,
      improveInsulationAction, changeHeatingAction]
  · intro e
    simp [energyActions, optimizeElectricityAction, renewableEnergyAction,
      improveInsulationAction, changeHeatingAction]
  · intro e
    simp [energyActions, optimizeElectricityAction, renewableEnergyAction,
      improveInsulationAction, changeHeatingAction]
  · intro l
    simp [lifestyleActions, reduceMeatAction, localFoodAction, wasteManagementAction,
      responsibleShoppingAction]
  · intro l
    simp [lifestyleActions, reduceMeatAction, localFoodAction, wasteManagementAction,
      responsibleShoppingAction]
  · intro l
    simp [lifestyleActions, reduceMeatAction, localFoodAction, wasteManagementAction,
      responsibleShoppingAction]
  · intro l
    simp [lifestyleActions, reduceMeatAction, localFoodAction, wasteManagementAction,
      responsibleShoppingAction]

/-- Claim C5 — concrete scenario 1: a petrol car driven 20000 km/year, age
5, with 1 passenger and all other inputs zero/none gives exactly
`(20000 * 0.192 * 1.1) / 1 / 1000 = 4.224` tonnes. -/
theorem transport_scenario1_petrol :
    calculateTransportEmissions scenario1Transport = some 4.224 := by
  simp [calculateTransportEmissions, carContribution, publicTransportContribution,
    carLookup, publicTransportLookup, carEmission, flightsEmission, flightsShortHaulFactor,
    flightsMediumHaulFactor, flightsLongHaulFactor, scenario1Transport, zeroTransport,
    min_def, max_def]
  norm_num

/-- Claim C6, counterexample — with `carKm = 0` the car contribution is 0
for every passenger count, so it is not strictly decreasing in
`carPassengers` for all fixings of the other fields. -/
theorem passengers_not_strictly_decreasing_at_zero_km :
    carContribution { zeroKmPetrol with carPassengers := 2 } = carContribution zeroKmPetrol
      ∧ carContribution zeroKmPetrol = some 0 := by
  constructor <;>
    simp [carContribution, carLookup, carEmission, zeroKmPetrol, zeroTransport, min_def, max_def]

/-- Claim C6, amended — for a known non-none `carType` with non-negative
age and positive distance, the car contribution is monotone non-decreasing
in `carKm` and in `carAge` (the age multiplier capping at 15), and strictly
decreasing in `carPassengers` (≥ 1); strictness needs `0 < carKm`. -/
theorem car_contribution_monotone (t : TransportData) (b k1 k2 a1 a2 p1 p2 : ℚ)
    (hmem : t.carType ∈ ["electric", "hybrid", "petrol", "diesel"])
    (hb : carLookup t.carType = some b)
    (hage : 0 ≤ t.carAge) (hkm : 0 < t.carKm)
    (hk : k1 ≤ k2) (ha : a1 ≤ a2) (hp1 : 1 ≤ p1) (hp : p1 < p2) :
    carContribution t = some (carEmission t b)
      ∧ carEmission { t with carKm := k1 } b ≤ carEmission { t with carKm := k2 } b
      ∧ carEmission { t with carAge := a1 } b ≤ carEmission { t with carAge := a2 } b
      ∧ carEmission { t with carPassengers := p2 } b < carEmission { t with carPassengers := p1 } b := by
  have hbpos : 0 < b := by
    simp at hmem
    rcases hmem with h | h | h | h <;> rw [h] at hb <;> simp [carLookup] at hb <;>
      rw [← hb] <;> norm_num
  have hne : t.carType ≠ "" ∧ t.carType ≠ "none" := by
    simp at hmem
    rcases hmem with h | h | h | h <;> rw [h] <;> simp
  have hmul : (0:ℚ) < 1 + min t.carAge 15 * 0.02 := by
    have h0 : (0:ℚ) ≤ min t.carAge 15 := le_min hage (by norm_num)
    nlinarith
  have hdiv : (0:ℚ) < max t.carPassengers 1 := lt_of_lt_of_le one_pos (le_max_right _ _)
  refine ⟨?_, ?_, ?_, ?_⟩
  · simp [carContribution, hne, hb]
  · simp only [carEmission]
    exact (div_le_div_iff_of_pos_right hdiv).mpr
      (mul_le_mul_of_nonneg_right (mul_le_mul_of_nonneg_right hk hbpos.le) hmul.le)
  · simp only [carEmission]
    have h1 : 1 + min a1 15 * 0.02 ≤ 1 + min a2 15 * 0.02 := by
      have := min_le_min ha (le_refl (15:ℚ))
      linarith
    exact (div_le_div_iff_of_pos_right hdiv).mpr
      (mul_le_mul_of_nonneg_left h1 (mul_pos hkm hbpos).le)
  · simp only [carEmission]
    rw [max_eq_left hp1, max_eq_left (hp1.trans hp.le)]
    have hN : 0 < t.carKm * b * (1 + min t.carAge 15 * 0.02) :=
      mul_pos (mul_pos hkm hbpos) hmul
    exact div_lt_div_of_pos_left hN (lt_of_lt_of_le one_pos hp1) hp

/-- Claim C6, witness — the amended monotonicity statement applied to the
scenario-1 petrol record at distances 1000 ≤ 2000, ages 3 ≤ 7 and
passenger counts 1 < 2. -/
theorem car_contribution_monotone_witness :
    carContribution scenario1Transport = some (carEmission scenario1Transport 0.192)
      ∧ carEmission { scenario1Transport with carKm := 1000 } 0.192
          ≤ carEmission { scenario1Transport with carKm := 2000 } 0.192
      ∧ carEmission { scenario1Transport with carAge := 3 } 0.192
          ≤ carEmission { scenario1Transport with carAge := 7 } 0.192
      ∧ carEmission { scenario1Transport with carPassengers := 2 } 0.192
          < carEmission { scenario1Transport with carPassengers := 1 } 0.192 :=
  car_contribution_monotone scenario1Transport 0.192 1000 2000 3 7 1 2
    (by simp [scenario1Transport, zeroTransport])
    (by simp [carLookup, scenario1Transport, zeroTransport])
    (by norm_num [scenario1Transport, zeroTransport])
    (by norm_num [scenario1Transport, zeroTransport])
    (by norm_num) (by norm_num) (by norm_num) (by norm_num)

/-- Claim C7 — enabling both waste reductions multiplies the lifestyle
total by exactly `0.9 * 0.95 = 0.855`, for every lifestyle record. -/
theorem lifestyle_waste_reduction_ratio (l : LifestyleData) :
    calculateLifestyleEmissions { l with wasteRecycling := true, wasteComposting := true }
      = 0.855 * calculateLifestyleEmissions { l with wasteRecycling := false, wasteComposting := false } := by
  simp [calculateLifestyleEmissions]
  ring

/-- Claim C8 — whenever the pipeline produces a result, its total is the
sum of the three sector outputs and its comparison block holds
`(total - 9)/9*100`, `(total - 4.7)/4.7*100` and the two raw averages. -/
theorem final_footprint_aggregation (fd : FormData) (r : CarbonFootprintResult)
    (h : calculateFinalFootprint fd = some r) :
    r.total = r.breakdown.transport + r.breakdown.energy + r.breakdown.lifestyle
      ∧ calculateTransportEmissions fd.transport = some r.breakdown.transport
      ∧ r.breakdown.energy = calculateEnergyEmissions fd.energy
      ∧ r.breakdown.lifestyle = calculateLifestyleEmissions fd.lifestyle
      ∧ r.comparison.percentageFromNational = (r.total - 9.0) / 9.0 * 100
      ∧ r.comparison.percentageFromWorld = (r.total - 4.7) / 4.7 * 100
      ∧ r.comparison.nationalAverage = 9.0
      ∧ r.comparison.worldAverage = 4.7 := by
  unfold calculateFinalFootprint at h
  cases htr : calculateTransportEmissions fd.transport with
  | none => rw [htr] at h; simp at h
  | some v =>
    rw [htr, Option.map_some'] at h
    injection h with h
    subst h
    simp [compareToNationalAverage]

/-- Claim C8, witness — the aggregation statement applied to the zero
record and its computed result. -/
theorem final_footprint_aggregation_witness :
    aggregated.total
        = aggregated.breakdown.transport + aggregated.breakdown.energy + aggregated.breakdown.lifestyle
      ∧ calculateTransportEmissions zeroRecord.transport = some aggregated.breakdown.transport
      ∧ aggregated.breakdown.energy = calculateEnergyEmissions zeroRecord.energy
      ∧ aggregated.breakdown.lifestyle = calculateLifestyleEmissions zeroRecord.lifestyle
      ∧ aggregated.comparison.percentageFromNational = (aggregated.total - 9.0) / 9.0 * 100
      ∧ aggregated.comparison.percentageFromWorld = (aggregated.total - 4.7) / 4.7 * 100
      ∧ aggregated.comparison.nationalAverage = 9.0
      ∧ aggregated.comparison.worldAverage = 4.7 :=
  final_footprint_aggregation zeroRecord aggregated
    (by simp [calculateFinalFootprint, calculateTransportEmissions, carContribution,
      publicTransportContribution, carLookup, publicTransportLookup, carEmission,
      flightsEmission, flightsShortHaulFactor, flightsMediumHaulFactor, flightsLongHaulFactor,
      calculateEnergyEmissions, energyConversionFactor, heatingEmissionFactor, insulationFactor,
      calculateLifestyleEmissions, dietFactor, aggregated,
      zeroRecord, zeroTransport, zeroEnergy, zeroLifestyle, min_def, max_def]; norm_num)

/-- Claim C9 — two-run noninterference: replacing only the unused fields
(motorcycle ownership, home type/size/occupants, meat frequency, water
consumption) changes nothing in any sector calculator, in the aggregator,
or in the recommendation engine. -/
theorem unused_fields_noninterference (fd : FormData) (m : Motorcycle) (ht : String)
    (hs occ : ℚ) (mf : Option ℚ) (wc : ℚ) :
    calculateTransportEmissions { fd.transport with motorcycle := m }
        = calculateTransportEmissions fd.transport
      ∧ calculateEnergyEmissions { fd.energy with homeType := ht, homeSize := hs, occupants := occ }
          = calculateEnergyEmissions fd.energy
      ∧ calculateLifestyleEmissions { fd.lifestyle with meatFrequency := mf, waterConsumption := wc }
          = calculateLifestyleEmissions fd.lifestyle
      ∧ calculateFinalFootprint
            { transport := { fd.transport with motorcycle := m }
              energy := { fd.energy with homeType := ht, homeSize := hs, occupants := occ }
              lifestyle := { fd.lifestyle with meatFrequency := mf, waterConsumption := wc } }
          = calculateFinalFootprint fd
      ∧ getDetailedRecommendations
            { transport := { fd.transport with motorcycle := m }
              energy := { fd.energy with homeType := ht, homeSize := hs, occupants := occ }
              lifestyle := { fd.lifestyle with meatFrequency := mf, waterConsumption := wc } }
          = getDetailedRecommendations fd :=
  ⟨rfl, rfl, rfl, rfl, rfl⟩

/-- Claim C10, counterexample — a record whose lifestyle fields satisfy
every range constraint of the claim but whose electricity consumption is
negative has total `-54.6` tonnes, so the total is not strictly positive
for all such inputs. -/
theorem negative_electricity_total_not_positive :
    (0 ≤ negElectricityRecord.lifestyle.localFoodPercentage
        ∧ negElectricityRecord.lifestyle.localFoodPercentage ≤ 100
        ∧ 0 ≤ negElectricityRecord.lifestyle.shoppingHabits.clothes
        ∧ 0 ≤ negElectricityRecord.lifestyle.shoppingHabits.electronics
        ∧ 0 ≤ negElectricityRecord.lifestyle.shoppingHabits.furniture)
      ∧ (calculateFinalFootprint negElectricityRecord).map CarbonFootprintResult.total
          = some (-54.6)
      ∧ ¬(0 < (-54.6 : ℚ)) := by
  refine ⟨by norm_num [negElectricityRecord, zeroRecord, zeroLifestyle], ?_, by norm_num⟩
  simp [calculateFinalFootprint, calculateTransportEmissions, carContribution,
    publicTransportContribution, carLookup, publicTransportLookup, carEmission,
    flightsEmission, flightsShortHaulFactor, flightsMediumHaulFactor, flightsLongHaulFactor,
    calculateEnergyEmissions, energyConversionFactor, heatingEmissionFactor, insulationFactor,
    calculateLifestyleEmissions, dietFactor,
    negElectricityRecord, zeroRecord, zeroTransport, zeroEnergy, zeroLifestyle, min_def, max_def]
  norm_num

/-- Claim C10, amended — for lifestyle inputs with `localFoodPercentage`
in [0,100] and non-negative shopping scores the lifestyle output is at
least 0.684 tonnes regardless of the diet string; the total is strictly
positive provided the transport result is defined and the transport and
energy sectors are additionally non-negative. -/
theorem lifestyle_lower_bound (l : LifestyleData) (fd : FormData) (t : ℚ)
    (hp0 : 0 ≤ l.localFoodPercentage) (hp1 : l.localFoodPercentage ≤ 100)
    (hc : 0 ≤ l.shoppingHabits.clothes) (he : 0 ≤ l.shoppingHabits.electronics)
    (hf : 0 ≤ l.shoppingHabits.furniture)
    (hfd : fd.lifestyle = l)
    (htr : calculateTransportEmissions fd.transport = some t)
    (ht0 : 0 ≤ t) (hen : 0 ≤ calculateEnergyEmissions fd.energy) :
    0.684 ≤ calculateLifestyleEmissions l
      ∧ (calculateFinalFootprint fd).map CarbonFootprintResult.total
          = some (t + calculateEnergyEmissions fd.energy + calculateLifestyleEmissions l)
      ∧ 0 < t + calculateEnergyEmissions fd.energy + calculateLifestyleEmissions l := by
  have hDiet : (1000:ℚ) ≤ dietFactor l.dietType := by
    unfold dietFactor
    split_ifs <;> norm_num
  have hbound : (0.684:ℚ) ≤ calculateLifestyleEmissions l := by
    have hadj : (0.8 : ℚ) ≤ 1 - l.localFoodPercentage * 0.002 := by linarith
    have hbase : (0.8 : ℚ) ≤ dietFactor l.dietType * (1 - l.localFoodPercentage * 0.002) / 1000 := by
      rw [le_div_iff₀ (by norm_num : (0:ℚ) < 1000)]
      nlinarith
    have hshop : (0:ℚ) ≤ (l.shoppingHabits.clothes * 0.1 + l.shoppingHabits.electronics * 0.2
        + l.shoppingHabits.furniture * 0.15) * 0.01 := by
      have h1 : (0:ℚ) ≤ l.shoppingHabits.clothes * 0.1 := by nlinarith
      have h2 : (0:ℚ) ≤ l.shoppingHabits.electronics * 0.2 := by nlinarith
      have h3 : (0:ℚ) ≤ l.shoppingHabits.furniture * 0.15 := by nlinarith
      nlinarith
    simp only [calculateLifestyleEmissions]
    split_ifs <;> nlinarith
  refine ⟨hbound, ?_, by linarith⟩
  unfold calculateFinalFootprint
  rw [htr, Option.map_some']
  simp [hfd]

/-- Claim C10, witness — the amended statement applied to the zero record
(lifestyle 2.5 t, transport and energy 0, total 2.5 > 0). -/
theorem lifestyle_lower_bound_witness :
    (0.684:ℚ) ≤ calculateLifestyleEmissions zeroLifestyle
      ∧ (calculateFinalFootprint zeroRecord).map CarbonFootprintResult.total
          = some (0 + calculateEnergyEmissions zeroRecord.energy
              + calculateLifestyleEmissions zeroLifestyle)
      ∧ 0 < 0 + calculateEnergyEmissions zeroRecord.energy
          + calculateLifestyleEmissions zeroLifestyle :=
  lifestyle_lower_bound zeroLifestyle zeroRecord 0
    (by norm_num [zeroLifestyle]) (by norm_num [zeroLifestyle])
    (by norm_num [zeroLifestyle]) (by norm_num [zeroLifestyle]) (by norm_num [zeroLifestyle])
    rfl
    (by simp [calculateTransportEmissions, carContribution, publicTransportContribution,
      carLookup, publicTransportLookup, flightsEmission, zeroRecord, zeroTransport])
    (by norm_num)
    (by simp [calculateEnergyEmissions, zeroRecord, zeroEnergy])
